import Mathlib

/- A shallow embedding of src/app.py: a small Flask front-end for the Deezer
music catalog API.  Strings are modelled as lists of characters, JSON payloads
as an inductive type, and the HTTP transport as an explicit outcome value fed
to the request helper, so that every Python function becomes a total Lean
function whose result can be computed on concrete inputs.  Route handlers
additionally return the list of endpoints they passed to the Gateway, so that
claims about which calls are issued become statements about that list. -/

namespace DeezerApp

/-- The whitespace characters removed by str.strip with no argument:
space, tab, newline, carriage return, vertical tab, form feed. -/
def isPySpace (c : Char) : Bool :=
  c == ' ' || c == '\t' || c == '\n' || c == '\r' || c == '\x0b' || c == '\x0c'

/-- Leading-whitespace removal, the first half of str.strip. -/
def pyLstripWS (s : List Char) : List Char := s.dropWhile isPySpace

/-- Trailing-whitespace removal, the second half of str.strip. -/
def pyRstripWS (s : List Char) : List Char := (s.reverse.dropWhile isPySpace).reverse

/-- endpoint.strip() of line 38 of app.py: remove surrounding whitespace. -/
def pyStrip (s : List Char) : List Char := pyRstripWS (pyLstripWS s)

/-- endpoint.lstrip with a slash argument, line 38 of app.py: remove every
leading slash character, not just the first one. -/
def pyLstripSlash (s : List Char) : List Char := s.dropWhile (fun c => c == '/')

/-- JSON values as produced by response.json(). -/
inductive Json where
  | null
  | bool (b : Bool)
  | num (n : Int)
  | str (s : List Char)
  | arr (items : List Json)
  | obj (fields : List (List Char × Json))

/-- The key inspected by the upstream-error check of line 57 of app.py. -/
def errorKey : List Char := ("error").data

/-- Line 57 of app.py: isinstance(data, dict) together with a membership test
of the error key among the top-level keys of the mapping. -/
def Json.hasErrorKey : Json → Bool
  | .obj fields => fields.any (fun kv => kv.1 == errorKey)
  | _ => false

/-- One outbound HTTP GET as observed inside make_api_request: either a
transport-level exception of the requests library, or a response carrying a
status code and a decoded body; the body is none when response.json() fails
with a decode error. -/
inductive Transport where
  | timeout
  | connectionError
  | httpError
  | requestError
  | response (status : Nat) (body : Option Json)

/-- Whether the transport outcome is an exception rather than a response. -/
def Transport.isFailure : Transport → Bool
  | .response _ _ => false
  | _ => true

/-- The fixed upstream base address, line 9 of app.py. -/
def DEEZER_BASE_URL : List Char := ("https://api.deezer.com").data

/-- Lines 38 and 39 of app.py: clean the endpoint with strip and lstrip of
slash, then join the base address, one slash, and the cleaned endpoint. -/
def requestUrl (endpoint : List Char) : List Char :=
  DEEZER_BASE_URL ++ '/' :: pyLstripSlash (pyStrip endpoint)

/-- The status, decode and error-key checks of lines 49 to 62 of app.py. -/
def gatewayDecode (status : Nat) (body : Option Json) : Option Json :=
  if status ≠ 200 then none
  else
    match body with
    | none => none
    | some d => if d.hasErrorKey then none else some d

/-- make_api_request of lines 34 to 82 of app.py.  The world argument stands
for the network: it gives the transport outcome of the single GET issued at
the formed URL.  Every except branch of the source returns the None sentinel,
so each exception constructor maps to none here. -/
def make_api_request (endpoint : List Char) (world : List Char → Transport) : Option Json :=
  match world (requestUrl endpoint) with
  | .timeout => none
  | .connectionError => none
  | .httpError => none
  | .requestError => none
  | .response status body => gatewayDecode status body

/-- URL formation as the claim words it: after trimming, strip ONE leading
path separator if present.  Written from the claim text for comparison with
requestUrl, which follows the source and strips every leading separator. -/
def stripOneLeadingSlash : List Char → List Char
  | '/' :: rest => rest
  | s => s

/-- The full URL under the claim wording of normalization. -/
def claimRequestUrl (endpoint : List Char) : List Char :=
  DEEZER_BASE_URL ++ '/' :: stripOneLeadingSlash (pyStrip endpoint)

/-- Uppercase hexadecimal digits used by percent-encoding. -/
def hexChars : List Char := ("0123456789ABCDEF").data

/-- The hexadecimal digit of a value taken modulo 16. -/
def hexDigit (n : Nat) : Char := hexChars.getD (n % 16) '0'

/-- Two-digit uppercase hexadecimal form of a byte. -/
def toHex2 (n : Nat) : List Char := hexDigit (n / 16) :: hexDigit n :: []

/-- UTF-8 bytes of a character: requests.utils.quote encodes non-ASCII text
as UTF-8 before percent-encoding each byte. -/
def utf8Bytes (c : Char) : List Nat :=
  let n := c.toNat
  if n < 128 then n :: []
  else if n < 2048 then (192 + n / 64) :: (128 + n % 64) :: []
  else if n < 65536 then
    (224 + n / 4096) :: (128 + n / 64 % 64) :: (128 + n % 64) :: []
  else
    (240 + n / 262144) :: (128 + n / 4096 % 64) :: (128 + n / 64 % 64) :: (128 + n % 64) :: []

/-- Characters never quoted by requests.utils.quote: ASCII letters, digits,
underscore, dot, dash, tilde, and the default safe character slash. -/
def isAlwaysSafe (c : Char) : Bool :=
  c.isAlpha || c.isDigit || c == '_' || c == '.' || c == '-' || c == '~' || c == '/'

/-- Percent-encode a byte sequence. -/
def pctEncodeBytes : List Nat → List Char
  | [] => []
  | b :: bs => '%' :: (toHex2 b ++ pctEncodeBytes bs)

/-- requests.utils.quote with its default safe set, line 112 of app.py. -/
def pyQuote : List Char → List Char
  | [] => []
  | c :: rest =>
    (if isAlwaysSafe c then c :: [] else pctEncodeBytes (utf8Bytes c)) ++ pyQuote rest

/-- The render context handed to search.html by the search handler. -/
structure SearchContext where
  results : Option Json
  query : List Char
  search_type : List Char

/-- The f-string of line 113 of app.py forming the search endpoint. -/
def searchEndpoint (search_type query : List Char) : List Char :=
  ("search/").data ++ search_type ++ ("?q=").data ++ pyQuote query ++ ("&limit=10").data

/-- The search handler, lines 98 to 140 of app.py: default the query to the
empty string and the type to track, call the Gateway only when the query is
non-empty, and pass results, query and type to the template.  The second
component records the endpoints passed to the Gateway. -/
def search (q ty : Option (List Char)) (world : List Char → Transport) :
    SearchContext × List (List Char) :=
  let query := q.getD []
  let search_type := ty.getD ("track").data
  if query = [] then
    ({ results := none, query := query, search_type := search_type }, [])
  else
    let api_url := searchEndpoint search_type query
    ({ results := make_api_request api_url world, query := query, search_type := search_type },
      [api_url])

/-- The render context handed to detail.html by the artist handler; only the
two payload fields matter to the claims. -/
structure ArtistContext where
  data : Option Json
  top_tracks : Option Json

/-- The primary artist endpoint of line 238 of app.py. -/
def artistEndpoint (artist_id : List Char) : List Char := ("artist/").data ++ artist_id

/-- The top-tracks endpoint of line 240 of app.py. -/
def artistTopEndpoint (artist_id : List Char) : List Char :=
  ("artist/").data ++ artist_id ++ ("/top?limit=10").data

/-- The artist handler, lines 235 to 245 of app.py: two Gateway calls whose
results are passed under the distinct keys data and top_tracks. -/
def artist_detail (artist_id : List Char) (world : List Char → Transport) :
    ArtistContext × List (List Char) :=
  let artist_data := make_api_request (artistEndpoint artist_id) world
  let top_tracks := make_api_request (artistTopEndpoint artist_id) world
  ({ data := artist_data, top_tracks := top_tracks },
    [artistEndpoint artist_id, artistTopEndpoint artist_id])

/-- The values the template filters receive: the None object, an integer, or
a string.  These are the inputs the claims quantify over. -/
inductive PyVal where
  | vnone
  | vint (n : Int)
  | vstr (s : List Char)

/-- Digit run of the int constructor applied to a string: digits with single
underscores allowed between two digits. -/
def digitsValue (acc : Nat) : List Char → Option Nat
  | [] => some acc
  | '_' :: c :: rest =>
    if c.isDigit then digitsValue (acc * 10 + (c.toNat - 48)) rest else none
  | '_' :: [] => none
  | c :: rest =>
    if c.isDigit then digitsValue (acc * 10 + (c.toNat - 48)) rest else none

/-- A non-empty digit run that must begin with a digit. -/
def parseUnsigned : List Char → Option Nat
  | [] => none
  | c :: rest => if c.isDigit then digitsValue (c.toNat - 48) rest else none

/-- The int constructor applied to a string: strip whitespace, optional sign,
then a digit run; failure raises ValueError in the source, here none. -/
def pyIntOfStr (s : List Char) : Option Int :=
  match pyStrip s with
  | '+' :: rest => (parseUnsigned rest).map (fun n => (n : Int))
  | '-' :: rest => (parseUnsigned rest).map (fun n => -(n : Int))
  | rest => (parseUnsigned rest).map (fun n => (n : Int))

/-- Decimal digits of a natural number, most significant first. -/
def natRepr (n : Nat) : List Char := Nat.toDigits 10 n

/-- str applied to an integer. -/
def intRepr (n : Int) : List Char :=
  if n < 0 then '-' :: natRepr n.natAbs else natRepr n.natAbs

/-- Comma grouping on a reversed digit list: a comma after every third
digit from the right. -/
def commaGroupRev : List Char → List Char
  | a :: b :: c :: d :: rest => a :: b :: c :: ',' :: commaGroupRev (d :: rest)
  | l => l

/-- The comma format spec applied to a natural number. -/
def commaFormatNat (n : Nat) : List Char := (commaGroupRev (natRepr n).reverse).reverse

/-- The comma format spec of line 18 of app.py applied to an integer. -/
def commaFormatInt (n : Int) : List Char :=
  if n < 0 then '-' :: commaFormatNat n.natAbs else commaFormatNat n.natAbs

/-- format_number of lines 12 to 20 of app.py.  int(value) succeeds on an
integer and on a parseable string; on failure the filter falls back to
str(value), which for a string input is the string itself. -/
def format_number (value : PyVal) : List Char :=
  match value with
  | .vnone => ("0").data
  | .vint n => commaFormatInt n
  | .vstr s =>
    match pyIntOfStr s with
    | some n => commaFormatInt n
    | none => s

/-- Zero-padding to width two, the 02d format spec of line 30 of app.py. -/
def pad2 (n : Int) : List Char :=
  let r := intRepr n
  if r.length < 2 then '0' :: r else r

/-- The f-string of line 30 of app.py: floor-division minutes, a colon, and
the remainder seconds padded to two digits.  Python floor division and its
modulo are Int.fdiv and Int.fmod. -/
def durationString (n : Int) : List Char :=
  intRepr (n.fdiv 60) ++ ':' :: pad2 (n.fmod 60)

/-- format_duration of lines 22 to 32 of app.py. -/
def format_duration (seconds : PyVal) : List Char :=
  match seconds with
  | .vnone => ("0:00").data
  | .vint n => durationString n
  | .vstr s =>
    match pyIntOfStr s with
    | some n => durationString n
    | none => ("0:00").data

/-- A rendered page: template name and HTTP status. -/
structure Page where
  template : List Char
  status : Nat

/-- not_found_error of lines 300 to 302 of app.py: render error.html with
status 404. -/
def not_found_error : Page := { template := ("error.html").data, status := 404 }

/-- internal_error of lines 304 to 306 of app.py: render error.html with
status 500. -/
def internal_error : Page := { template := ("error.html").data, status := 500 }

/-- What reaches the route boundary for one request: a successful render, no
matching route, or an exception escaping the handler. -/
inductive RouteOutcome where
  | ok (template : List Char)
  | noRoute
  | raised (message : List Char)

/-- Modelled from the spec: the route-boundary dispatch is Flask framework
code absent from src, which catches any exception escaping a handler and
invokes the registered error handlers; only those handlers (lines 300 to 306
of app.py) are in the source.  A successful render is served with status 200,
a missing route goes to not_found_error, and an escaped exception goes to
internal_error. -/
def dispatch (r : RouteOutcome) : Page :=
  match r with
  | .ok t => { template := t, status := 200 }
  | .noRoute => not_found_error
  | .raised _ => internal_error

/-- Dropping while a predicate holds ignores a prefix on which it holds
everywhere. -/
lemma dropWhile_append_of_all {p : Char → Bool} {w s : List Char}
    (h : ∀ c ∈ w, p c = true) : (w ++ s).dropWhile p = s.dropWhile p := by
  rw [List.dropWhile_append, List.dropWhile_eq_nil_iff.mpr h]
  simp

/-- Leading-whitespace removal absorbs a prepended run of whitespace. -/
lemma pyLstripWS_ws_append {w s : List Char} (h : ∀ c ∈ w, isPySpace c = true) :
    pyLstripWS (w ++ s) = pyLstripWS s :=
  dropWhile_append_of_all h

/-- Trailing-whitespace removal absorbs an appended run of whitespace. -/
lemma pyRstripWS_append_ws {s w : List Char} (h : ∀ c ∈ w, isPySpace c = true) :
    pyRstripWS (s ++ w) = pyRstripWS s := by
  unfold pyRstripWS
  rw [List.reverse_append, dropWhile_append_of_all fun c hc => h c (List.mem_reverse.mp hc)]

/-- str.strip absorbs a prepended run of whitespace. -/
lemma pyStrip_ws_append_left {w s : List Char} (h : ∀ c ∈ w, isPySpace c = true) :
    pyStrip (w ++ s) = pyStrip s := by
  unfold pyStrip
  rw [pyLstripWS_ws_append h]

/-- str.strip absorbs an appended run of whitespace. -/
lemma pyStrip_ws_append_right {s w : List Char} (h : ∀ c ∈ w, isPySpace c = true) :
    pyStrip (s ++ w) = pyStrip s := by
  unfold pyStrip pyLstripWS
  rw [List.dropWhile_append]
  by_cases he : (s.dropWhile isPySpace).isEmpty
  · rw [if_pos he, List.dropWhile_eq_nil_iff.mpr h]
    have hnil : s.dropWhile isPySpace = [] := by
      cases hd : s.dropWhile isPySpace
      · rfl
      · rw [hd] at he
        simp at he
    rw [hnil]
  · rw [if_neg he, pyRstripWS_append_ws h]

/-- Trailing-whitespace removal commutes with a non-whitespace head. -/
lemma pyRstripWS_slash_cons (s : List Char) :
    pyRstripWS ('/' :: s) = '/' :: pyRstripWS s := by
  unfold pyRstripWS
  rw [List.reverse_cons, List.dropWhile_append]
  by_cases he : (s.reverse.dropWhile isPySpace).isEmpty
  · rw [if_pos he]
    have hnil : s.reverse.dropWhile isPySpace = [] := by
      cases hd : s.reverse.dropWhile isPySpace
      · rfl
      · rw [hd] at he
        simp at he
    rw [hnil]
    rfl
  · rw [if_neg he, List.reverse_append]
    rfl

/-- On an endpoint with no leading whitespace, a prepended slash is removed
by the cleaning of line 38 of app.py, leaving the URL unchanged. -/
lemma requestUrl_slash_cons {s : List Char} (h : pyLstripWS s = s) :
    requestUrl ('/' :: s) = requestUrl s := by
  have h1 : pyStrip ('/' :: s) = '/' :: pyRstripWS s := by
    unfold pyStrip
    have h2 : pyLstripWS ('/' :: s) = '/' :: s := by
      unfold pyLstripWS
      rw [List.dropWhile_cons, if_neg (by decide)]
    rw [h2]
    exact pyRstripWS_slash_cons s
  have h3 : pyStrip s = pyRstripWS s := by
    unfold pyStrip
    rw [h]
  unfold requestUrl pyLstripSlash
  rw [h1, h3, List.dropWhile_cons, if_pos (by decide)]

/-- A transport-level exception makes the request helper return none. -/
lemma transport_failure_none (e : List Char) (w : List Char → Transport)
    (h : Transport.isFailure (w (requestUrl e)) = true) : make_api_request e w = none := by
  unfold make_api_request
  cases hw : w (requestUrl e)
  case response status body =>
    rw [hw] at h
    exact absurd h (by simp [Transport.isFailure])
  all_goals rfl

/-- When the world answers with a response, the request helper returns the
decoded classification of that response. -/
lemma make_api_request_response {e : List Char} {w : List Char → Transport} {status : Nat}
    {body : Option Json} (hw : w (requestUrl e) = Transport.response status body) :
    make_api_request e w = gatewayDecode status body := by
  unfold make_api_request
  rw [hw]

/-- A status other than 200 classifies as none, whatever the body. -/
lemma gatewayDecode_non200 {status : Nat} (body : Option Json) (h : status ≠ 200) :
    gatewayDecode status body = none := by
  unfold gatewayDecode
  rw [if_pos h]

/-- A decoded mapping holding the error key classifies as none. -/
lemma gatewayDecode_error {status : Nat} {d : Json} (he : d.hasErrorKey = true) :
    gatewayDecode status (some d) = none := by
  unfold gatewayDecode
  by_cases hs : status ≠ 200
  · rw [if_pos hs]
  · rw [if_neg hs]
    simp [he]

/-- Whatever classifies as a payload carries no top-level error key. -/
lemma gatewayDecode_some_no_error {status : Nat} {body : Option Json} {d : Json}
    (h : gatewayDecode status body = some d) : d.hasErrorKey = false := by
  unfold gatewayDecode at h
  split at h
  · exact absurd h (by simp)
  · cases body with
    | none => exact absurd h (by simp)
    | some d3 =>
      simp only [] at h
      by_cases he : d3.hasErrorKey = true
      · rw [if_pos he] at h
        exact absurd h (by simp)
      · rw [if_neg he] at h
        injection h with hd
        subst hd
        simpa using he

/-- Every character emitted by the percent-encoder hex table is in the safe
set. -/
lemma hexDigit_safe (n : Nat) : isAlwaysSafe (hexDigit n) = true := by
  have h : n % 16 = 0 ∨ n % 16 = 1 ∨ n % 16 = 2 ∨ n % 16 = 3 ∨ n % 16 = 4 ∨ n % 16 = 5 ∨
      n % 16 = 6 ∨ n % 16 = 7 ∨ n % 16 = 8 ∨ n % 16 = 9 ∨ n % 16 = 10 ∨ n % 16 = 11 ∨
      n % 16 = 12 ∨ n % 16 = 13 ∨ n % 16 = 14 ∨ n % 16 = 15 := by omega
  unfold hexDigit
  rcases h with h | h | h | h | h | h | h | h | h | h | h | h | h | h | h | h <;> rw [h] <;> rfl

/-- Every character of a percent-encoded byte run is safe or a percent. -/
lemma pctEncodeBytes_safe (bs : List Nat) :
    ∀ c ∈ pctEncodeBytes bs, isAlwaysSafe c = true ∨ c = '%' := by
  induction bs with
  | nil =>
    intro c hc
    simp [pctEncodeBytes] at hc
  | cons b bs ih =>
    intro c hc
    have hrw : pctEncodeBytes (b :: bs) =
        '%' :: hexDigit (b / 16) :: hexDigit b :: pctEncodeBytes bs := rfl
    rw [hrw] at hc
    rcases List.mem_cons.mp hc with h | hc
    · exact Or.inr h
    rcases List.mem_cons.mp hc with h | hc
    · subst h
      exact Or.inl (hexDigit_safe (b / 16))
    rcases List.mem_cons.mp hc with h | hc
    · subst h
      exact Or.inl (hexDigit_safe b)
    · exact ih c hc

/-- Every character of a quoted string is safe or a percent: the quoting of
line 112 of app.py leaves no reserved or non-ASCII character in the query
component. -/
lemma pyQuote_safe (q : List Char) : ∀ c ∈ pyQuote q, isAlwaysSafe c = true ∨ c = '%' := by
  induction q with
  | nil =>
    intro c hc
    simp [pyQuote] at hc
  | cons a rest ih =>
    intro c hc
    have hrw : pyQuote (a :: rest) =
        (if isAlwaysSafe a then a :: [] else pctEncodeBytes (utf8Bytes a)) ++ pyQuote rest := rfl
    rw [hrw] at hc
    rcases List.mem_append.mp hc with h | h
    · by_cases ha : isAlwaysSafe a = true
      · rw [if_pos ha] at h
        rcases List.mem_cons.mp h with h | h
        · subst h
          exact Or.inl ha
        · simp at h
      · rw [if_neg ha] at h
        exact pctEncodeBytes_safe _ c h
    · exact ih c h

/-- Claim C1, as stated, is false on the source: line 38 of app.py strips
EVERY leading slash, not one, so the double-slash endpoint is requested at a
different URL than the one-strip wording predicts; and since trimming runs
before slash-stripping, an endpoint whose separator is followed by whitespace
is not requested at the same URL as its pre-trimmed form. -/
theorem C1_counterexample :
    requestUrl (("//x").data) ≠ claimRequestUrl (("//x").data) ∧
    requestUrl (("/ x").data) ≠
      requestUrl (stripOneLeadingSlash (pyStrip (("/ x").data))) := by
  constructor <;> decide

/-- Claim C1 amended: the Gateway forms the URL by trimming surrounding
whitespace and stripping ALL leading path separators before concatenating
with the base address; consequently surrounding whitespace never changes the
requested URL, and a prepended separator does not change it provided the rest
of the endpoint does not begin with whitespace. -/
theorem C1_url_normalization :
    ∀ s w : List Char, (∀ c ∈ w, isPySpace c = true) →
      requestUrl (w ++ s) = requestUrl s ∧
      requestUrl (s ++ w) = requestUrl s ∧
      (pyLstripWS s = s → requestUrl ('/' :: s) = requestUrl s) := by
  intro s w h
  refine ⟨?_, ?_, ?_⟩
  · unfold requestUrl
    rw [pyStrip_ws_append_left h]
  · unfold requestUrl
    rw [pyStrip_ws_append_right h]
  · intro hs
    exact requestUrl_slash_cons hs

/-- Witness for C1 at the endpoint x with a one-space whitespace run. -/
theorem C1_url_normalization_witness :
    (∀ c ∈ [' '], isPySpace c = true) ∧
    requestUrl ([' '] ++ ("x").data) = requestUrl (("x").data) ∧
    requestUrl (("x").data ++ [' ']) = requestUrl (("x").data) ∧
    pyLstripWS (("x").data) = ("x").data ∧
    requestUrl ('/' :: ("x").data) = requestUrl (("x").data) :=
  ⟨by decide,
    (C1_url_normalization (("x").data) [' '] (by decide)).1,
    (C1_url_normalization (("x").data) [' '] (by decide)).2.1,
    by decide,
    (C1_url_normalization (("x").data) [' '] (by decide)).2.2 (by decide)⟩

/-- Claim C2: every transport-level exception is absorbed by
make_api_request into the None sentinel, and on every call the caller
receives either none or a decoded payload; no exception crosses the Gateway
boundary, which in this total embedding is the fact that the result is
always one of the two Option forms. -/
theorem C2_no_exception_propagation :
    ∀ (endpoint : List Char) (world : List Char → Transport),
      (Transport.isFailure (world (requestUrl endpoint)) = true →
        make_api_request endpoint world = none) ∧
      (make_api_request endpoint world = none ∨
        ∃ d : Json, make_api_request endpoint world = some d) := by
  intro e w
  constructor
  · exact transport_failure_none e w
  · cases hr : make_api_request e w
    · exact Or.inl rfl
    · exact Or.inr ⟨_, rfl⟩

/-- Witness for C2: a timed-out world makes the chart request return none. -/
theorem C2_no_exception_propagation_witness :
    Transport.isFailure ((fun _ => Transport.timeout) (requestUrl (("chart/0").data))) = true ∧
    make_api_request (("chart/0").data) (fun _ => Transport.timeout) = none :=
  ⟨rfl, (C2_no_exception_propagation (("chart/0").data) (fun _ => Transport.timeout)).1 rfl⟩

/-- Claim C3: a response with status other than 200 makes make_api_request
return none regardless of the body, and any two non-200 responses classify
identically, so no distinction between 4xx and 5xx reaches the caller. -/
theorem C3_non_200_absorbed :
    ∀ (endpoint : List Char) (world : List Char → Transport) (status : Nat)
      (body : Option Json) (status2 : Nat) (body2 : Option Json),
      world (requestUrl endpoint) = Transport.response status body → status ≠ 200 →
      status2 ≠ 200 →
      make_api_request endpoint world = none ∧
      gatewayDecode status body = gatewayDecode status2 body2 := by
  intro e w s b s2 b2 hw hs hs2
  constructor
  · rw [make_api_request_response hw]
    exact gatewayDecode_non200 b hs
  · rw [gatewayDecode_non200 b hs, gatewayDecode_non200 b2 hs2]

/-- Witness for C3 on a 404 with a decodable body against a 500 with an
undecodable one. -/
theorem C3_non_200_absorbed_witness :
    ((fun _ => Transport.response 404 (some (Json.obj []))) (requestUrl (("album/1").data)) =
      Transport.response 404 (some (Json.obj []))) ∧
    (404 ≠ 200) ∧ (500 ≠ 200) ∧
    make_api_request (("album/1").data)
      (fun _ => Transport.response 404 (some (Json.obj []))) = none ∧
    gatewayDecode 404 (some (Json.obj [])) = gatewayDecode 500 none :=
  ⟨rfl, by decide, by decide,
    (C3_non_200_absorbed (("album/1").data) (fun _ => Transport.response 404 (some (Json.obj [])))
      404 (some (Json.obj [])) 500 none rfl (by decide) (by decide)).1,
    (C3_non_200_absorbed (("album/1").data) (fun _ => Transport.response 404 (some (Json.obj [])))
      404 (some (Json.obj [])) 500 none rfl (by decide) (by decide)).2⟩

/-- Claim C4: a decoded mapping carrying a top-level error key is turned
into none, and as an invariant over all inputs any payload make_api_request
returns is free of a top-level error key. -/
theorem C4_error_key_invariant :
    ∀ (endpoint : List Char) (world : List Char → Transport) (status : Nat) (d d2 : Json),
      (world (requestUrl endpoint) = Transport.response status (some d) →
        Json.hasErrorKey d = true → make_api_request endpoint world = none) ∧
      (make_api_request endpoint world = some d2 → Json.hasErrorKey d2 = false) := by
  intro e w status d d2
  constructor
  · intro hw he
    rw [make_api_request_response hw]
    exact gatewayDecode_error he
  · intro hsome
    unfold make_api_request at hsome
    cases hw : w (requestUrl e) <;> rw [hw] at hsome
    case response s b => exact gatewayDecode_some_no_error hsome
    all_goals simp at hsome

/-- Witness for C4: an errored payload is absorbed, a clean payload is
returned and carries no error key. -/
theorem C4_error_key_invariant_witness :
    Json.hasErrorKey (Json.obj [((("error").data), Json.num 800)]) = true ∧
    make_api_request (("track/1").data)
      (fun _ => Transport.response 200 (some (Json.obj [((("error").data), Json.num 800)]))) =
        none ∧
    make_api_request (("track/1").data)
      (fun _ => Transport.response 200 (some (Json.obj [((("title").data), Json.null)]))) =
        some (Json.obj [((("title").data), Json.null)]) ∧
    Json.hasErrorKey (Json.obj [((("title").data), Json.null)]) = false :=
  ⟨rfl,
    (C4_error_key_invariant (("track/1").data)
      (fun _ => Transport.response 200 (some (Json.obj [((("error").data), Json.num 800)])))
      200 (Json.obj [((("error").data), Json.num 800)]) Json.null).1 rfl rfl,
    rfl,
    (C4_error_key_invariant (("track/1").data)
      (fun _ => Transport.response 200 (some (Json.obj [((("title").data), Json.null)])))
      200 Json.null (Json.obj [((("title").data), Json.null)])).2 rfl⟩

/-- Claim C5: on an absent or empty query the search handler issues no
Gateway call and its render context carries a null result, the empty query,
and the type defaulted to track when absent. -/
theorem C5_empty_query_no_call :
    ∀ (q ty : Option (List Char)) (world : List Char → Transport),
      q = none ∨ q = some [] →
      (search q ty world).2 = [] ∧
      (search q ty world).1.results = none ∧
      (search q ty world).1.query = [] ∧
      (search q ty world).1.search_type = ty.getD (("track").data) := by
  intro q ty w h
  rcases h with h | h <;> subst h <;> exact ⟨rfl, rfl, rfl, rfl⟩

/-- Witness for C5 at the empty query with an absent type parameter. -/
theorem C5_empty_query_no_call_witness :
    ((some ([] : List Char) = none ∨ some ([] : List Char) = some [])) ∧
    (search (some []) none (fun _ => Transport.timeout)).2 = [] ∧
    (search (some []) none (fun _ => Transport.timeout)).1.results = none ∧
    (search (some []) none (fun _ => Transport.timeout)).1.query = [] ∧
    (search (some []) none (fun _ => Transport.timeout)).1.search_type =
      (none : Option (List Char)).getD (("track").data) :=
  ⟨Or.inr rfl,
    (C5_empty_query_no_call (some []) none (fun _ => Transport.timeout) (Or.inr rfl)).1,
    (C5_empty_query_no_call (some []) none (fun _ => Transport.timeout) (Or.inr rfl)).2.1,
    (C5_empty_query_no_call (some []) none (fun _ => Transport.timeout) (Or.inr rfl)).2.2.1,
    (C5_empty_query_no_call (some []) none (fun _ => Transport.timeout) (Or.inr rfl)).2.2.2⟩

/-- Claim C6: with query abc and no type parameter the type defaults to
track and the endpoint handed to the Gateway is exactly
search/track?q=abc&limit=10; and for every query, every character the quoting
of the free-text component emits is in the safe URL set or a percent sign,
so reserved and non-ASCII characters never reach the endpoint unencoded. -/
theorem C6_search_endpoint_quoting :
    (∀ world : List Char → Transport,
      search (some (("abc").data)) none world =
        ({ results := make_api_request (("search/track?q=abc&limit=10").data) world,
           query := ("abc").data, search_type := ("track").data },
          [("search/track?q=abc&limit=10").data])) ∧
    (∀ (q : List Char) (c : Char), c ∈ pyQuote q → isAlwaysSafe c = true ∨ c = '%') := by
  constructor
  · intro world
    rfl
  · exact pyQuote_safe

/-- Witness for C6: the concrete search call, and the percent sign emitted
for the space in a two-word query. -/
theorem C6_search_endpoint_quoting_witness :
    search (some (("abc").data)) none (fun _ => Transport.timeout) =
      ({ results := make_api_request (("search/track?q=abc&limit=10").data)
          (fun _ => Transport.timeout),
         query := ("abc").data, search_type := ("track").data },
        [("search/track?q=abc&limit=10").data]) ∧
    '%' ∈ pyQuote (("a b").data) ∧
    (isAlwaysSafe '%' = true ∨ '%' = '%') :=
  ⟨C6_search_endpoint_quoting.1 (fun _ => Transport.timeout),
    by decide,
    C6_search_endpoint_quoting.2 (("a b").data) '%' (by decide)⟩

/-- Claim C7: the artist handler issues exactly the two Gateway calls
artist/id and artist/id/top?limit=10, places their results under the
distinct context keys data and top_tracks, and each result depends only on
the transport outcome at its own URL, so the two calls are independent. -/
theorem C7_artist_two_calls :
    ∀ (artist_id : List Char) (w w2 : List Char → Transport),
      (artist_detail artist_id w).2 =
        [("artist/").data ++ artist_id,
          ("artist/").data ++ artist_id ++ ("/top?limit=10").data] ∧
      (artist_detail artist_id w).1.data = make_api_request (artistEndpoint artist_id) w ∧
      (artist_detail artist_id w).1.top_tracks =
        make_api_request (artistTopEndpoint artist_id) w ∧
      (w (requestUrl (artistEndpoint artist_id)) = w2 (requestUrl (artistEndpoint artist_id)) →
        (artist_detail artist_id w).1.data = (artist_detail artist_id w2).1.data) ∧
      (w (requestUrl (artistTopEndpoint artist_id)) =
          w2 (requestUrl (artistTopEndpoint artist_id)) →
        (artist_detail artist_id w).1.top_tracks = (artist_detail artist_id w2).1.top_tracks) := by
  intro aid w w2
  refine ⟨rfl, rfl, rfl, ?_, ?_⟩
  · intro h
    show make_api_request (artistEndpoint aid) w = make_api_request (artistEndpoint aid) w2
    unfold make_api_request
    rw [h]
  · intro h
    show make_api_request (artistTopEndpoint aid) w =
      make_api_request (artistTopEndpoint aid) w2
    unfold make_api_request
    rw [h]

/-- Witness for C7 at identifier 1, with a world where the primary call
succeeds and the top-tracks call times out, so one key holds a payload and
the other holds the sentinel. -/
theorem C7_artist_two_calls_witness :
    (artist_detail (("1").data)
        (fun u => if u = requestUrl (artistEndpoint (("1").data))
          then Transport.response 200 (some Json.null) else Transport.timeout)).2 =
      [("artist/").data ++ ("1").data,
        ("artist/").data ++ ("1").data ++ ("/top?limit=10").data] ∧
    ((fun (u : List Char) => if u = requestUrl (artistEndpoint (("1").data))
        then Transport.response 200 (some Json.null) else Transport.timeout)
      (requestUrl (artistEndpoint (("1").data))) =
      (fun (u : List Char) => if u = requestUrl (artistEndpoint (("1").data))
        then Transport.response 200 (some Json.null) else Transport.timeout)
      (requestUrl (artistEndpoint (("1").data)))) ∧
    (artist_detail (("1").data)
        (fun u => if u = requestUrl (artistEndpoint (("1").data))
          then Transport.response 200 (some Json.null) else Transport.timeout)).1.data =
      some Json.null ∧
    (artist_detail (("1").data)
        (fun u => if u = requestUrl (artistEndpoint (("1").data))
          then Transport.response 200 (some Json.null) else Transport.timeout)).1.top_tracks =
      none :=
  ⟨(C7_artist_two_calls (("1").data)
      (fun u => if u = requestUrl (artistEndpoint (("1").data))
        then Transport.response 200 (some Json.null) else Transport.timeout)
      (fun u => if u = requestUrl (artistEndpoint (("1").data))
        then Transport.response 200 (some Json.null) else Transport.timeout)).1,
    rfl, rfl, rfl⟩

/-- Claim C8: the formatting filters are total functions in this embedding;
formatting None yields 0 and 0:00, formatting 125 seconds yields 2:05, and a
string on which the int conversion fails falls back to the string itself for
format_number and to 0:00 for format_duration. -/
theorem C8_formatting_filters :
    format_number PyVal.vnone = ("0").data ∧
    format_duration PyVal.vnone = ("0:00").data ∧
    format_duration (PyVal.vint 125) = ("2:05").data ∧
    ∀ s : List Char, pyIntOfStr s = none →
      format_number (PyVal.vstr s) = s ∧ format_duration (PyVal.vstr s) = ("0:00").data := by
  refine ⟨rfl, rfl, by decide, ?_⟩
  intro s h
  constructor
  · show (match pyIntOfStr s with
      | some n => commaFormatInt n
      | none => s) = s
    rw [h]
  · show (match pyIntOfStr s with
      | some n => durationString n
      | none => ("0:00").data) = ("0:00").data
    rw [h]

/-- Witness for C8 at the non-numeric string abc. -/
theorem C8_formatting_filters_witness :
    pyIntOfStr (("abc").data) = none ∧
    format_number (PyVal.vstr (("abc").data)) = ("abc").data ∧
    format_duration (PyVal.vstr (("abc").data)) = ("0:00").data :=
  ⟨rfl,
    (C8_formatting_filters.2.2.2 (("abc").data) rfl).1,
    (C8_formatting_filters.2.2.2 (("abc").data) rfl).2⟩

/-- Claim C9: at the route boundary every outcome becomes a rendered page
with status 200, 404 or 500; an exception escaping a handler is mapped by
the generic handler to the 500 error page and a missing route to the 404
error page, so a handler-level exception never crashes the process (the
dispatch is a total function on outcomes). -/
theorem C9_route_boundary :
    ∀ (r : RouteOutcome) (m : List Char),
      ((dispatch r).status = 200 ∨ (dispatch r).status = 404 ∨ (dispatch r).status = 500) ∧
      (r = RouteOutcome.raised m →
        dispatch r = internal_error ∧ (dispatch r).status = 500 ∧
        (dispatch r).template = ("error.html").data) ∧
      (r = RouteOutcome.noRoute →
        dispatch r = not_found_error ∧ (dispatch r).status = 404) := by
  intro r m
  refine ⟨?_, ?_, ?_⟩
  · cases r with
    | ok t => exact Or.inl rfl
    | noRoute => exact Or.inr (Or.inl rfl)
    | raised msg => exact Or.inr (Or.inr rfl)
  · intro h
    subst h
    exact ⟨rfl, rfl, rfl⟩
  · intro h
    subst h
    exact ⟨rfl, rfl⟩

/-- Witness for C9 at a raised outcome and at the missing-route outcome. -/
theorem C9_route_boundary_witness :
    (RouteOutcome.raised (("boom").data) = RouteOutcome.raised (("boom").data)) ∧
    dispatch (RouteOutcome.raised (("boom").data)) = internal_error ∧
    (RouteOutcome.noRoute = RouteOutcome.noRoute) ∧
    dispatch RouteOutcome.noRoute = not_found_error :=
  ⟨rfl,
    ((C9_route_boundary (RouteOutcome.raised (("boom").data)) (("boom").data)).2.1 rfl).1,
    rfl,
    ((C9_route_boundary RouteOutcome.noRoute (("boom").data)).2.2 rfl).1⟩

/-- Claim C10: for a negative number of seconds the filter does not clamp to
0:00 but renders the floor-division minutes, a negative number, and the
modulo seconds, which lie in the range 0 to 59; at the input minus one the
output is -1:59. -/
theorem C10_negative_duration :
    ∀ n : Int, n < 0 →
      format_duration (PyVal.vint n) = intRepr (n.fdiv 60) ++ ':' :: pad2 (n.fmod 60) ∧
      n.fdiv 60 < 0 ∧ 0 ≤ n.fmod 60 ∧ n.fmod 60 < 60 ∧
      format_duration (PyVal.vint n) ≠ ("0:00").data ∧
      format_duration (PyVal.vint (-1)) = ("-1:59").data := by
  intro n hn
  have hdiv : n.fdiv 60 < 0 := by
    rw [Int.fdiv_eq_ediv n (by norm_num)]
    exact Int.ediv_neg' hn (by norm_num)
  have hm0 : 0 ≤ n.fmod 60 := by
    rw [Int.fmod_eq_emod n (by norm_num)]
    exact Int.emod_nonneg n (by norm_num)
  have hm60 : n.fmod 60 < 60 := Int.fmod_lt_of_pos n (by norm_num)
  refine ⟨rfl, hdiv, hm0, hm60, ?_, by decide⟩
  have hrepr : format_duration (PyVal.vint n) =
      '-' :: (natRepr (n.fdiv 60).natAbs ++ ':' :: pad2 (n.fmod 60)) := by
    show durationString n = _
    unfold durationString intRepr
    rw [if_pos hdiv, List.cons_append]
  rw [hrepr]
  intro hcontra
  have h004 : (("0:00").data) = '0' :: ':' :: '0' :: '0' :: [] := rfl
  rw [h004] at hcontra
  injection hcontra with h1 h2
  exact absurd h1 (by decide)

/-- Witness for C10 at minus one second. -/
theorem C10_negative_duration_witness :
    ((-1 : Int) < 0) ∧
    format_duration (PyVal.vint (-1)) = ("-1:59").data ∧
    format_duration (PyVal.vint (-1)) ≠ ("0:00").data :=
  ⟨by decide,
    (C10_negative_duration (-1) (by decide)).2.2.2.2.2,
    (C10_negative_duration (-1) (by decide)).2.2.2.2.1⟩

end DeezerApp
